import Mathlib

/-!
Verification of the mimic-lerobot composite mobile-manipulator control layer.

This file shallowly embeds, in Lean 4, the parts of the repository that the
spec's testable properties are about:

* src/lerobot/motors/mecanum_base/mecanum.py (MecanumBase serial driver);
* src/lerobot/teleoperators/mimic_leader/base_controllers.py (keyboard /
  Xbox / joystick input controllers);
* src/lerobot/robots/mimic_follower/mimic_follower.py (composite follower
  feature schemas and send_action);
* src/lerobot/teleoperators/mimic_leader/mimic_leader.py (composite leader
  get_action).

Scalar values are modelled as rationals; the serial port is modelled as an
explicit record holding its open flag, its input buffer (a list of
characters, abstracting the byte stream) and the log of lines written to the
device.  Python dictionaries are modelled as association lists in insertion
order, so that a duplicated key in the list is exactly an aliasing of two
different signals onto one key of the resulting dict.
-/

/-! ## Character and string utilities (Python library behaviour used by the code) -/

/-- Whitespace characters recognised by Python str.strip (the subset that can
occur on this wire protocol). -/
def pyIsSpace (c : Char) : Bool :=
  c = ' ' || c = '\t' || c = '\n' || c = '\r'

/-- Python str.strip: drop whitespace from both ends. -/
def pystrip (s : List Char) : List Char :=
  ((s.dropWhile pyIsSpace).reverse.dropWhile pyIsSpace).reverse

/-- Python str.split on a comma: splitComma [] = [[]], and every comma starts
a new field (so "a,,b" gives three fields, the middle one empty). -/
def splitComma : List Char → List (List Char)
  | [] => [[]]
  | c :: rest =>
    if c = ',' then [] :: splitComma rest
    else
      match splitComma rest with
      | [] => [[c]]
      | p :: ps => (c :: p) :: ps

/-- Numeric value of a list of decimal digit characters, most significant first. -/
def digitsToNat (s : List Char) : ℕ :=
  s.foldl (fun acc c => 10 * acc + (c.toNat - '0'.toNat)) 0

/-- Modelled from the library: Python float() restricted to the decimal forms
that occur on the ODOM wire protocol (optional sign, digits, optional single
decimal point; exponent and inf/nan forms are out of scope).  Returns none on
anything else, which in the source raises ValueError. -/
def pyFloat (s : List Char) : Option ℚ :=
  let t := pystrip s
  let signed : ℚ × List Char :=
    match t with
    | '-' :: r => (-1, r)
    | '+' :: r => (1, r)
    | r => (1, r)
  let u := signed.2
  let intPart := u.takeWhile Char.isDigit
  let rest := u.dropWhile Char.isDigit
  match rest with
  | [] =>
    if intPart.isEmpty then none
    else some (signed.1 * digitsToNat intPart)
  | '.' :: frac =>
    if frac.all Char.isDigit && !(intPart.isEmpty && frac.isEmpty) then
      some (signed.1 * ((digitsToNat intPart : ℚ) + digitsToNat frac / 10 ^ frac.length))
    else none
  | _ => none

/-- Decimal digits of a natural number, most significant first. -/
def natDigits (n : ℕ) : List Char :=
  Nat.toDigits 10 n

/-- Left-pad a character list with zeros to the given length. -/
def padZeros (k : ℕ) (s : List Char) : List Char :=
  List.replicate (k - s.length) '0' ++ s

/-- Modelled from the library: Python percent-.3f fixed-point formatting of an
exact rational (sign, integer part, exactly three fractional digits; the
half-way rounding mode is irrelevant to the claims, which evaluate it at 0). -/
def fmt3 (q : ℚ) : List Char :=
  let n : ℕ := (Int.floor (|q| * 1000 + 1/2)).toNat
  let sign : List Char := if q < 0 then ['-'] else []
  sign ++ natDigits (n / 1000) ++ ['.'] ++ padZeros 3 (natDigits (n % 1000))

/-! ## MecanumBase (src/lerobot/motors/mecanum_base/mecanum.py) -/

/-- Pose or velocity triple: (x, y, theta) or (vx, vy, omega). -/
abbrev Vec3 := ℚ × ℚ × ℚ

/-- Model of the pyserial handle: the open flag, the pending input bytes
(modelled as characters) and the log of lines written out to the device. -/
structure SerialPort where
  is_open : Bool
  in_buffer : List Char
  written : List (List Char)
deriving DecidableEq, Repr

/-- State of the MecanumBase driver: optional serial handle plus the stored
latest odometry pose and latest reported velocity. -/
structure MecanumBase where
  ser : Option SerialPort
  latest_odom : Vec3
  latest_vel : Vec3
deriving DecidableEq, Repr

namespace MecanumBase

/-- The TWIST command line, field for field the f-string
TWIST,{vx:.3f},{vy:.3f},{omega:.3f}\n of send_twist. -/
def twistMsg (vx vy omega : ℚ) : List Char :=
  "TWIST,".data ++ fmt3 vx ++ [','] ++ fmt3 vy ++ [','] ++ fmt3 omega ++ ['\n']

/-- send_twist: a None or closed port returns with no write and no state
change (the source logs a warning); otherwise the formatted command line is
appended to the device write log. -/
def send_twist (b : MecanumBase) (vx vy omega : ℚ) : MecanumBase :=
  match b.ser with
  | none => b
  | some p =>
    if p.is_open then
      { b with ser := some { p with written := p.written ++ [twistMsg vx vy omega] } }
    else b

/-- disconnect: when the handle exists and the port is open, send the zero
twist and then close the port; otherwise do nothing. -/
def disconnect (b : MecanumBase) : MecanumBase :=
  match b.ser with
  | none => b
  | some p =>
    if p.is_open then
      let b1 := send_twist b 0 0 0
      match b1.ser with
      | none => b1
      | some p1 => { b1 with ser := some { p1 with is_open := false } }
    else b

/-- ser.readline(): consume characters up to and including the first newline;
with no newline in the buffer the whole remainder is returned (the timeout
path of pyserial). -/
def takeLine : List Char → List Char × List Char
  | [] => ([], [])
  | c :: rest =>
    if c = '\n' then ([c], rest)
    else
      let p := takeLine rest
      (c :: p.1, p.2)

/-- The while ser.in_waiting > 0 loop of read_odom: repeatedly readline,
remembering the last chunk that ends in a newline; a trailing chunk without a
newline never becomes the remembered line. -/
def read_buffer_loop (buf : List Char) (line : Option (List Char)) : Option (List Char) :=
  if h : buf = [] then line
  else
    let p := takeLine buf
    read_buffer_loop p.2 (if p.1.getLast? = some '\n' then some p.1 else line)
termination_by buf.length
decreasing_by
  cases buf with
  | nil => exact absurd rfl h
  | cons c rest =>
    have hb : (takeLine rest).2.length ≤ rest.length := by
      clear h
      induction rest with
      | nil => simp [takeLine]
      | cons d ds ih =>
        by_cases hd : d = '\n' <;> simp [takeLine, hd] <;> omega
    by_cases hc : c = '\n' <;> simp [takeLine, hc] <;> omega

/-- Successful-parse semantics of _parse_odom_string: header check with
startswith, split on commas, at least 7 fields, then the six float
conversions; any failure yields none (in the source, an early return or a
swallowed ValueError). -/
def parseOdomValues (s : List Char) : Option (Vec3 × Vec3) :=
  if "ODOM".data.isPrefixOf s then
    let parts := splitComma s
    if 7 ≤ parts.length then
      match pyFloat (parts.getD 1 []), pyFloat (parts.getD 2 []), pyFloat (parts.getD 3 []),
            pyFloat (parts.getD 4 []), pyFloat (parts.getD 5 []), pyFloat (parts.getD 6 []) with
      | some x, some y, some th, some vx, some vy, some om =>
        some ((x, y, th), (vx, vy, om))
      | _, _, _, _, _, _ => none
    else none
  else none

/-- The _parse_odom_string method: on a successful parse the stored pose and
velocity are replaced (both assignments happen after all six conversions
succeed, so the update is atomic); on any failure the state is unchanged. -/
def _parse_odom_string (s : List Char) (b : MecanumBase) : MecanumBase :=
  match parseOdomValues s with
  | some ov => { b with latest_odom := ov.1, latest_vel := ov.2 }
  | none => b

/-- read_odom: on a None or closed port, return the stored state unchanged;
otherwise drain the whole input buffer keeping the last complete line, parse
it (decoded and stripped), and return the stored pose and velocity. -/
def read_odom (b : MecanumBase) : MecanumBase × (Vec3 × Vec3) :=
  match b.ser with
  | none => (b, (b.latest_odom, b.latest_vel))
  | some p =>
    if p.is_open then
      let line := read_buffer_loop p.in_buffer none
      let b1 : MecanumBase := { b with ser := some { p with in_buffer := [] } }
      let b2 :=
        match line with
        | some raw => _parse_odom_string (pystrip raw) b1
        | none => b1
      (b2, (b2.latest_odom, b2.latest_vel))
    else (b, (b.latest_odom, b.latest_vel))

end MecanumBase

namespace MecanumBase

/-- A complete line: some body without a newline, terminated by one newline. -/
def IsNlLine (l : List Char) : Prop :=
  ∃ m, l = m ++ ['\n'] ∧ '\n' ∉ m

/-- A malformed telemetry line in the sense of the spec: wrong header, fewer
than 7 comma-separated fields, or an unparseable float among the six value
fields (indices 1 to 6 of the split). -/
def Malformed (s : List Char) : Prop :=
  ¬ "ODOM".data.isPrefixOf s
    ∨ (splitComma s).length < 7
    ∨ ∃ i, i ∈ [1, 2, 3, 4, 5, 6] ∧ pyFloat ((splitComma s).getD i []) = none

end MecanumBase

/-! ## Input controllers (src/lerobot/teleoperators/mimic_leader/base_controllers.py) -/

/-- One poll's snapshot of the physical device state delivered by
pygame.event.pump: button states and axis values by index. -/
structure JoyInput where
  buttons : List Bool
  axes : List ℚ
deriving DecidableEq, Repr

/-- joystick.get_button(n). -/
def JoyInput.get_button (i : JoyInput) (n : ℕ) : Bool :=
  i.buttons.getD n false

/-- joystick.get_axis(n). -/
def JoyInput.get_axis (i : JoyInput) (n : ℕ) : ℚ :=
  i.axes.getD n 0

/-- joystick.get_numaxes(). -/
def JoyInput.get_numaxes (i : JoyInput) : ℕ :=
  i.axes.length

/-- A pygame joystick handle; get_init() is the inited flag, set by init() and
cleared by quit(). -/
structure PygameJoystick where
  inited : Bool
deriving DecidableEq, Repr

/-- A pynput keyboard listener handle with its thread-liveness flag. -/
structure KeyListener where
  alive : Bool
deriving DecidableEq, Repr

/-- Ambient pygame state at connect time: whether the pygame import succeeded
and how many joystick devices pygame.joystick.get_count() reports. -/
structure PygameEnv where
  available : Bool
  joystick_count : ℕ
deriving DecidableEq, Repr

/-- KeyboardBaseController state. -/
structure KeyboardBaseController where
  max_linear_speed : ℚ
  max_angular_speed : ℚ
  pressed_keys : List Char
  key_listener : Option KeyListener
deriving DecidableEq, Repr

namespace KeyboardBaseController

/-- get_velocities: sign-based mapping of the WASDQE key set. -/
def get_velocities (c : KeyboardBaseController) : ℚ × ℚ × ℚ :=
  let vx := (if 'w' ∈ c.pressed_keys then c.max_linear_speed else 0)
    - (if 's' ∈ c.pressed_keys then c.max_linear_speed else 0)
  let vy := (if 'a' ∈ c.pressed_keys then c.max_linear_speed else 0)
    - (if 'd' ∈ c.pressed_keys then c.max_linear_speed else 0)
  let omega := (if 'q' ∈ c.pressed_keys then c.max_angular_speed else 0)
    - (if 'e' ∈ c.pressed_keys then c.max_angular_speed else 0)
  (vx, vy, omega)

/-- is_connected: pynput available, listener present and its thread alive. -/
def is_connected (pynput_available : Bool) (c : KeyboardBaseController) : Bool :=
  pynput_available &&
    (match c.key_listener with
     | some l => l.alive
     | none => false)

end KeyboardBaseController

/-- XboxBaseController state (kwargs/default configuration path; the YAML
config path only changes the numeric settings). -/
structure XboxBaseController where
  max_linear_speed : ℚ
  max_angular_speed : ℚ
  max_linear_speed_turbo : ℚ
  max_angular_speed_turbo : ℚ
  enable_button : ℕ
  enable_turbo_button : ℕ
  deadzone : ℚ
  axis_linear_x : ℕ
  axis_linear_y : ℕ
  axis_angular_yaw : ℕ
  joystick : Option PygameJoystick
deriving DecidableEq, Repr

namespace XboxBaseController

/-- connect: returns silently when pygame is unavailable or no gamepad is
found (the source logs an error); otherwise installs an initialized
Joystick(0) handle. -/
def connect (env : PygameEnv) (c : XboxBaseController) : XboxBaseController :=
  if !env.available then c
  else if env.joystick_count = 0 then c
  else { c with joystick := some { inited := true } }

/-- disconnect: joystick.quit() deinitializes the handle but the attribute is
not cleared. -/
def disconnect (c : XboxBaseController) : XboxBaseController :=
  match c.joystick with
  | some j => { c with joystick := some { j with inited := false } }
  | none => c

/-- get_velocities: zero without a handle; zero unless one of the enable
buttons is held; turbo speed selected by the turbo button; per-read deadzone
on the three axes; the axis-to-DoF mapping of the source. -/
def get_velocities (c : XboxBaseController) (inp : JoyInput) : ℚ × ℚ × ℚ :=
  match c.joystick with
  | none => (0, 0, 0)
  | some _ =>
    let enable_normal := inp.get_button c.enable_button
    let enable_turbo := inp.get_button c.enable_turbo_button
    if !enable_normal && !enable_turbo then (0, 0, 0)
    else
      let use_turbo := enable_turbo
      let left_x := inp.get_axis c.axis_linear_y
      let left_y := inp.get_axis c.axis_linear_x
      let right_x := inp.get_axis c.axis_angular_yaw
      let left_x := if |left_x| < c.deadzone then 0 else left_x
      let left_y := if |left_y| < c.deadzone then 0 else left_y
      let right_x := if |right_x| < c.deadzone then 0 else right_x
      let linear_speed := if use_turbo then c.max_linear_speed_turbo else c.max_linear_speed
      let angular_speed := if use_turbo then c.max_angular_speed_turbo else c.max_angular_speed
      (-left_y * linear_speed, -left_x * linear_speed, -right_x * angular_speed)

/-- is_connected of the Xbox variant: only a null check on the handle. -/
def is_connected (c : XboxBaseController) : Bool :=
  c.joystick.isSome

end XboxBaseController

/-- JoystickBaseController state, including the turbo toggle flag and the
previous both-buttons state used for edge detection. -/
structure JoystickBaseController where
  max_linear_speed : ℚ
  max_angular_speed : ℚ
  max_linear_speed_turbo : ℚ
  max_angular_speed_turbo : ℚ
  deadzone : ℚ
  enable_button : ℕ
  enable_turbo_button : ℕ
  use_toggle_turbo : Bool
  require_safety_button : Bool
  turbo_toggled : Bool
  both_buttons_pressed_last : Bool
  joystick : Option PygameJoystick
deriving DecidableEq, Repr

namespace JoystickBaseController

/-- The _apply_deadzone helper. -/
def _apply_deadzone (c : JoystickBaseController) (value : ℚ) : ℚ :=
  if |value| < c.deadzone then 0 else value

/-- connect: silent return when pygame is unavailable or no device is found
(the source logs an error and, on an exception, clears the handle); otherwise
installs an initialized handle for device_index 0. -/
def connect (env : PygameEnv) (c : JoystickBaseController) : JoystickBaseController :=
  if !env.available then c
  else if env.joystick_count = 0 then c
  else { c with joystick := some { inited := true } }

/-- disconnect: joystick.quit() and the attribute is cleared to None. -/
def disconnect (c : JoystickBaseController) : JoystickBaseController :=
  { c with joystick := none }

/-- get_velocities: returns the possibly-updated controller state (toggle flag
and previous-both-buttons latch) along with the velocity triple.  Mirrors the
source's ordering: handle/pygame guard, safety guard (an early return that
skips the latch update), toggle or hold turbo selection, per-read deadzone,
axis mapping. -/
def get_velocities (pygame_available : Bool) (c : JoystickBaseController) (inp : JoyInput) :
    JoystickBaseController × (ℚ × ℚ × ℚ) :=
  match c.joystick with
  | none => (c, (0, 0, 0))
  | some _ =>
    if !pygame_available then (c, (0, 0, 0))
    else
      let enable_button_pressed := inp.get_button c.enable_button
      let turbo_button_pressed := inp.get_button c.enable_turbo_button
      if c.require_safety_button && !enable_button_pressed then (c, (0, 0, 0))
      else
        let step :=
          if c.use_toggle_turbo then
            let both := enable_button_pressed && turbo_button_pressed
            let toggled :=
              if both && !c.both_buttons_pressed_last then !c.turbo_toggled else c.turbo_toggled
            (({ c with turbo_toggled := toggled, both_buttons_pressed_last := both } :
                JoystickBaseController), toggled)
          else (c, turbo_button_pressed)
        let c1 := step.1
        let use_turbo := step.2
        let axis_x := c._apply_deadzone (inp.get_axis 0)
        let axis_y := c._apply_deadzone (inp.get_axis 1)
        let axis_twist := c._apply_deadzone (if 2 < inp.get_numaxes then inp.get_axis 2 else 0)
        let linear_speed := if use_turbo then c.max_linear_speed_turbo else c.max_linear_speed
        let angular_speed := if use_turbo then c.max_angular_speed_turbo else c.max_angular_speed
        (c1, (-axis_y * linear_speed, axis_x * linear_speed, -axis_twist * angular_speed))

/-- is_connected: pygame available, handle present and get_init() true. -/
def is_connected (pygame_available : Bool) (c : JoystickBaseController) : Bool :=
  pygame_available &&
    (match c.joystick with
     | some j => j.inited
     | none => false)

/-- Fold get_velocities over a sequence of polls, keeping the controller
state. -/
def run_polls (pygame_available : Bool) (c : JoystickBaseController) (inps : List JoyInput) :
    JoystickBaseController :=
  inps.foldl (fun s i => (get_velocities pygame_available s i).1) c

end JoystickBaseController

/-- Modelled from the spec: the turbo flag evolution the spec prescribes for
toggle mode, flipping exactly when both buttons are down this poll and were
not both down on the previous poll. -/
def specToggleFlag (polls : List (Bool × Bool)) (prevBoth flag : Bool) : Bool :=
  match polls with
  | [] => flag
  | (en, tu) :: rest =>
    let both := en && tu
    specToggleFlag rest both (if both && !prevBoth then !flag else flag)

/-- The (safety, turbo) button pair each poll delivers, as read through the
controller's configured button indices. -/
def pollsOf (inps : List JoyInput) (eb tb : ℕ) : List (Bool × Bool) :=
  inps.map fun i => (i.get_button eb, i.get_button tb)

/-! ## Key and action-map machinery shared by the composites -/

/-- Feature and action keys, modelled as their character lists so that
prefixing is list append. -/
abbrev Key := List Char

/-- An action or observation map: an association list in insertion order.
A Python dict built by merging keeps one entry per key, so a duplicate key in
this list is exactly two physical signals aliased onto one dict key. -/
abbrev ActionMap := List (Key × ℚ)

/-- dict.get k with a default of none: first (unique) matching key. -/
def lookupKey (m : ActionMap) (k : Key) : Option ℚ :=
  match m with
  | [] => none
  | kv :: rest => if kv.1 = k then some kv.2 else lookupKey rest k

/-- Keys of a map, in insertion order. -/
def mapKeys (m : ActionMap) : List Key :=
  m.map Prod.fst

/-! ## MimicFollower (src/lerobot/robots/mimic_follower/mimic_follower.py) -/

namespace MimicFollower

/-- The _arm_motors_ft property, keys only: left_{motor}.pos for the left
bus's motors then right_{motor}.pos for the right bus's motors. -/
def _arm_motors_ft_keys (left_motors right_motors : List Key) : List Key :=
  left_motors.map (fun m => "left_".data ++ m ++ ".pos".data)
    ++ right_motors.map (fun m => "right_".data ++ m ++ ".pos".data)

/-- Keys of observation_features in merge order: arm motor features, then
base_x/base_y/base_theta, then one key per configured camera name. -/
def observation_features_keys (left_motors right_motors cams : List Key) : List Key :=
  _arm_motors_ft_keys left_motors right_motors
    ++ ["base_x".data, "base_y".data, "base_theta".data] ++ cams

/-- Keys of action_features in merge order: arm motor features then
base_vx/base_vy/base_omega. -/
def action_features_keys (left_motors right_motors : List Key) : List Key :=
  _arm_motors_ft_keys left_motors right_motors
    ++ ["base_vx".data, "base_vy".data, "base_omega".data]

/-- send_action: the three base keys are read with dict.get defaulting to 0.0
and sent to the base as a twist; left_/right_ prefixed entries are stripped
and forwarded to the arms (whose own send_action functions are passed in as
parameters, the arm classes living outside this repository); the returned map
re-prefixes the arms' results and appends the base feedback. -/
def send_action (left_send right_send : ActionMap → ActionMap) (base : MecanumBase)
    (action : ActionMap) : MecanumBase × ActionMap :=
  let vx := (lookupKey action "base_vx".data).getD 0
  let vy := (lookupKey action "base_vy".data).getD 0
  let omega := (lookupKey action "base_omega".data).getD 0
  let base1 := MecanumBase.send_twist base vx vy omega
  let left_action := (action.filter (fun kv => "left_".data.isPrefixOf kv.1)).map
    (fun kv => (kv.1.drop 5, kv.2))
  let right_action := (action.filter (fun kv => "right_".data.isPrefixOf kv.1)).map
    (fun kv => (kv.1.drop 6, kv.2))
  let send_action_left := left_send left_action
  let send_action_right := right_send right_action
  (base1,
    send_action_left.map (fun kv => ("left_".data ++ kv.1, kv.2))
      ++ send_action_right.map (fun kv => ("right_".data ++ kv.1, kv.2))
      ++ [("base_vx".data, vx), ("base_vy".data, vy), ("base_omega".data, omega)])

/-- The twist send_action passes to MecanumBase.send_twist for a given action
map: each base component read with dict.get and a default of 0.0. -/
def base_twist_of_action (action : ActionMap) : ℚ × ℚ × ℚ :=
  ((lookupKey action "base_vx".data).getD 0,
   (lookupKey action "base_vy".data).getD 0,
   (lookupKey action "base_omega".data).getD 0)

end MimicFollower

/-! ## MimicLeader (src/lerobot/teleoperators/mimic_leader/mimic_leader.py) -/

/-- The base_control_mode literal of MimicLeaderConfig. -/
inductive BaseControlMode
  | keyboard
  | xbox
  | joystick
  | none
deriving DecidableEq, Repr

/-- MimicLeaderConfig: the fields the base-action path reads. -/
structure MimicLeaderConfig where
  base_control_mode : BaseControlMode
  max_linear_speed : ℚ
  max_angular_speed : ℚ
deriving DecidableEq, Repr

/-- MimicLeader state relevant to the base action: its config and the shared
set of currently pressed keys maintained by the pynput listener callbacks. -/
structure MimicLeader where
  config : MimicLeaderConfig
  base_pressed_keys : List Char
deriving DecidableEq, Repr

namespace MimicLeader

/-- The _get_base_action method: the keyboard branch maps WASDQE to a twist;
the xbox and joystick branches are placeholder pass statements in the source
(marked TODO), so every non-keyboard mode leaves the twist at the zeros it was
initialized to. -/
def _get_base_action (m : MimicLeader) : ActionMap :=
  let v : ℚ × ℚ × ℚ :=
    match m.config.base_control_mode with
    | .keyboard =>
      ((if 'w' ∈ m.base_pressed_keys then m.config.max_linear_speed else 0)
         - (if 's' ∈ m.base_pressed_keys then m.config.max_linear_speed else 0),
       (if 'a' ∈ m.base_pressed_keys then m.config.max_linear_speed else 0)
         - (if 'd' ∈ m.base_pressed_keys then m.config.max_linear_speed else 0),
       (if 'q' ∈ m.base_pressed_keys then m.config.max_angular_speed else 0)
         - (if 'e' ∈ m.base_pressed_keys then m.config.max_angular_speed else 0))
    | .xbox => (0, 0, 0)
    | .joystick => (0, 0, 0)
    | .none => (0, 0, 0)
  [("base_vx".data, v.1), ("base_vy".data, v.2.1), ("base_omega".data, v.2.2)]

/-- The get_action method: base action first, then the left arm's action
re-keyed under left_, then the right arm's under right_ (the arm teleoperators
live outside this repository, so their returned maps are parameters). -/
def get_action (m : MimicLeader) (left_action right_action : ActionMap) : ActionMap :=
  _get_base_action m
    ++ left_action.map (fun kv => ("left_".data ++ kv.1, kv.2))
    ++ right_action.map (fun kv => ("right_".data ++ kv.1, kv.2))

end MimicLeader

/-- Modelled from the spec: an SO-100 arm's action map carries one
{motor}.pos key per motor of its bus; the SO100Leader and SOFollower classes
live in the upstream lerobot package, outside this repository's sources. -/
def so100_action_keys (motors : List Key) : List Key :=
  motors.map (fun m => m ++ ".pos".data)

/-- Modelled from the spec: the six motors of one SO-100 arm (the follower's
docstring fixes the action space at 6 + 6 + 3). -/
def so100Motors : List Key :=
  ["shoulder_pan".data, "shoulder_lift".data, "elbow_flex".data,
   "wrist_flex".data, "wrist_roll".data, "gripper".data]

/-! ## Concrete fixtures evaluated by the witnesses -/

/-- Port fixture for C1: two complete ODOM lines followed by a partial one. -/
def c1Port : SerialPort :=
  { is_open := true,
    in_buffer := "ODOM,1,2,3,4,5,6,7,8,9,10\nODOM,9,8,7,6,5,4,3,2,1,0\nODOM,5,5,".data,
    written := [] }

/-- Driver fixture for C1. -/
def c1Base : MecanumBase :=
  { ser := some c1Port, latest_odom := (0, 0, 0), latest_vel := (0, 0, 0) }

/-- Port fixture for C2, with a nonzero twist already in the write log. -/
def c2Port : SerialPort :=
  { is_open := true, in_buffer := [], written := ["TWIST,0.250,0.000,-1.000\n".data] }

/-- Driver fixture for C2. -/
def c2Base : MecanumBase :=
  { ser := some c2Port, latest_odom := (1, 2, 3), latest_vel := (4, 5, 6) }

/-- Port fixture for C3: the buffer holds one truncated ODOM line. -/
def c3Port : SerialPort :=
  { is_open := true, in_buffer := "ODOM,1.5,2.0\n".data, written := [] }

/-- Driver fixture for C3, with a nonzero stored state. -/
def c3Base : MecanumBase :=
  { ser := some c3Port, latest_odom := (1, 2, 3), latest_vel := (4, 5, 6) }

/-- Driver fixture for C10: a closed port with pending input. -/
def c10Base : MecanumBase :=
  { ser := some { is_open := false, in_buffer := "ODOM,1,1,1,1,1,1,1,1,1,1\n".data, written := [] },
    latest_odom := (7, 8, 9), latest_vel := (1, 0, 0) }

/-- Joystick-controller fixture for the C4 counterexample: toggle mode with
the safety-button requirement enabled, connected, flags initially false. -/
def c4Ctrl : JoystickBaseController :=
  { max_linear_speed := 1/10, max_angular_speed := 1/5,
    max_linear_speed_turbo := 1/5, max_angular_speed_turbo := 2/5,
    deadzone := 3/20, enable_button := 6, enable_turbo_button := 7,
    use_toggle_turbo := true, require_safety_button := true,
    turbo_toggled := false, both_buttons_pressed_last := false,
    joystick := some { inited := true } }

/-- One poll with the given safety and turbo button states on buttons 6/7. -/
def c4Inp (en tu : Bool) : JoyInput :=
  { buttons := [false, false, false, false, false, false, en, tu], axes := [] }

/-- C4 counterexample polls: both pressed, safety released, both pressed. -/
def c4Polls : List JoyInput := [c4Inp true true, c4Inp false true, c4Inp true true]

/-- The factory joystick configuration for the amended C4: toggle mode with
the safety-button requirement off. -/
def c4wCtrl : JoystickBaseController :=
  { c4Ctrl with require_safety_button := false }

/-- Three consecutive polls with both buttons held. -/
def c4wPolls : List JoyInput := [c4Inp true true, c4Inp true true, c4Inp true true]

/-- Action fixture for C5: a single left-arm key and no base keys. -/
def c5Action : ActionMap := [("left_shoulder_pan.pos".data, 1)]

/-- Base fixture for C5. -/
def c5Base : MecanumBase :=
  { ser := some { is_open := true, in_buffer := [], written := [] },
    latest_odom := (0, 0, 0), latest_vel := (0, 0, 0) }

/-- Camera-name fixture for the C6 counterexample: a camera named base_x. -/
def c6Cams : List Key := ["base_x".data]

/-- Leader fixture for C7: xbox base-control mode. -/
def c7Leader : MimicLeader :=
  { config := { base_control_mode := .xbox, max_linear_speed := 1/2, max_angular_speed := 1 },
    base_pressed_keys := [] }

/-- A connected Xbox controller (the InputSource the xbox mode names). -/
def c7Xbox : XboxBaseController :=
  { max_linear_speed := 1/10, max_angular_speed := 1/5, max_linear_speed_turbo := 1/5,
    max_angular_speed_turbo := 2/5, enable_button := 4, enable_turbo_button := 5,
    deadzone := 3/20, axis_linear_x := 1, axis_linear_y := 0, axis_angular_yaw := 3,
    joystick := some { inited := true } }

/-- One poll for C7: safety held, left stick pushed fully forward. -/
def c7Inp : JoyInput :=
  { buttons := [false, false, false, false, true, false], axes := [0, -1, 0, 0] }

/-- Arm action maps for the C7 amended witness: one zero entry per SO-100
motor key. -/
def c7La : ActionMap := (so100_action_keys so100Motors).map (fun k => (k, 0))

/-- Xbox controller fixture for the C8 counterexample, connected. -/
def c8Ctrl : XboxBaseController :=
  { max_linear_speed := 1/10, max_angular_speed := 1/5, max_linear_speed_turbo := 1/5,
    max_angular_speed_turbo := 2/5, enable_button := 4, enable_turbo_button := 5,
    deadzone := 3/20, axis_linear_x := 1, axis_linear_y := 0, axis_angular_yaw := 3,
    joystick := some { inited := true } }

/-- Keyboard controller fixture for the C8 amended witness: listener alive. -/
def c8kb : KeyboardBaseController :=
  { max_linear_speed := 1/10, max_angular_speed := 1/5, pressed_keys := [],
    key_listener := some { alive := true } }

/-- Joystick controller fixture for the C8 amended witness: initialized. -/
def c8joy : JoystickBaseController :=
  { max_linear_speed := 1/10, max_angular_speed := 1/5,
    max_linear_speed_turbo := 1/5, max_angular_speed_turbo := 2/5,
    deadzone := 3/20, enable_button := 6, enable_turbo_button := 7,
    use_toggle_turbo := true, require_safety_button := false,
    turbo_toggled := false, both_buttons_pressed_last := false,
    joystick := some { inited := true } }

/-- Environment fixture for C9: pygame imported, zero devices present. -/
def c9Env : PygameEnv := { available := true, joystick_count := 0 }

/-- Freshly constructed Xbox controller for C9 (handle None). -/
def c9Xbox : XboxBaseController :=
  { max_linear_speed := 1/10, max_angular_speed := 1/5, max_linear_speed_turbo := 1/5,
    max_angular_speed_turbo := 2/5, enable_button := 4, enable_turbo_button := 5,
    deadzone := 3/20, axis_linear_x := 1, axis_linear_y := 0, axis_angular_yaw := 3,
    joystick := none }

/-- Freshly constructed joystick controller for C9 (handle None). -/
def c9Joy : JoystickBaseController :=
  { max_linear_speed := 1/10, max_angular_speed := 1/5,
    max_linear_speed_turbo := 1/5, max_angular_speed_turbo := 2/5,
    deadzone := 3/20, enable_button := 6, enable_turbo_button := 7,
    use_toggle_turbo := true, require_safety_button := false,
    turbo_toggled := false, both_buttons_pressed_last := false,
    joystick := none }

/-- An aggressive input for C9: all buttons held, all axes at full scale. -/
def c9Inp : JoyInput :=
  { buttons := [true, true, true, true, true, true, true, true], axes := [1, 1, 1, 1] }

/-! ## Lemmas about the freshest-packet drain loop -/

namespace MecanumBase

theorem takeLine_append_newline (m rest : List Char) (hm : '\n' ∉ m) :
    takeLine (m ++ '\n' :: rest) = (m ++ ['\n'], rest) := by
  induction m with
  | nil => simp [takeLine]
  | cons c cs ih =>
    have hc : ¬ c = '\n' := fun h => hm (h ▸ List.mem_cons_self c cs)
    have hcs : '\n' ∉ cs := fun h => hm (List.mem_cons_of_mem c h)
    simp [takeLine, hc, ih hcs]

theorem takeLine_no_newline (p : List Char) (hp : '\n' ∉ p) : takeLine p = (p, []) := by
  induction p with
  | nil => rfl
  | cons c cs ih =>
    have hc : ¬ c = '\n' := fun h => hp (h ▸ List.mem_cons_self c cs)
    have hcs : '\n' ∉ cs := fun h => hp (List.mem_cons_of_mem c h)
    simp [takeLine, hc, ih hcs]

theorem read_buffer_loop_nil (acc : Option (List Char)) : read_buffer_loop [] acc = acc := by
  rw [read_buffer_loop]
  simp

theorem read_buffer_loop_line (m rest : List Char) (acc : Option (List Char)) (hm : '\n' ∉ m) :
    read_buffer_loop ((m ++ ['\n']) ++ rest) acc = read_buffer_loop rest (some (m ++ ['\n'])) := by
  have hne : (m ++ ['\n']) ++ rest ≠ [] := by simp
  rw [read_buffer_loop, dif_neg hne]
  have ht : takeLine ((m ++ ['\n']) ++ rest) = (m ++ ['\n'], rest) := by
    have : (m ++ ['\n']) ++ rest = m ++ '\n' :: rest := by simp
    rw [this, takeLine_append_newline m rest hm]
  rw [ht]
  simp [List.getLast?_concat]

theorem read_buffer_loop_no_newline (p : List Char) (acc : Option (List Char))
    (hp : '\n' ∉ p) : read_buffer_loop p acc = acc := by
  by_cases h : p = []
  · rw [h, read_buffer_loop_nil]
  · rw [read_buffer_loop, dif_neg h, takeLine_no_newline p hp]
    have hlast : ¬ p.getLast? = some '\n' := by
      intro hg
      obtain ⟨h9, hx⟩ := List.mem_getLast?_eq_getLast (Option.mem_def.mpr hg)
      exact hp (hx ▸ List.getLast_mem h9)
    simp only [hlast, if_neg, if_false]
    exact read_buffer_loop_nil acc

/-- Draining a buffer that holds a nonempty sequence of complete lines followed
by a newline-free trailing fragment yields exactly the last complete line. -/
theorem read_buffer_loop_lines (front : List (List Char)) (lastL trailing : List Char)
    (acc : Option (List Char))
    (hfront : ∀ l ∈ front, IsNlLine l) (hlast : IsNlLine lastL) (ht : '\n' ∉ trailing) :
    read_buffer_loop ((front ++ [lastL]).flatten ++ trailing) acc = some lastL := by
  induction front generalizing acc with
  | nil =>
    obtain ⟨m, hm, hmn⟩ := hlast
    have : ([lastL] : List (List Char)).flatten ++ trailing = (m ++ ['\n']) ++ trailing := by
      simp [hm]
    rw [List.nil_append, this, read_buffer_loop_line m trailing acc hmn,
      read_buffer_loop_no_newline trailing _ ht, hm]
  | cons l ls ih =>
    obtain ⟨m, hm, hmn⟩ := hfront l (List.mem_cons_self l ls)
    have hrw : ((l :: ls ++ [lastL]).flatten ++ trailing)
        = (m ++ ['\n']) ++ ((ls ++ [lastL]).flatten ++ trailing) := by
      simp [hm]
    rw [List.cons_append] at hrw ⊢
    rw [hrw, read_buffer_loop_line m _ acc hmn]
    exact ih _ fun x hx => hfront x (List.mem_cons_of_mem l hx)

end MecanumBase

/-! ## Formatting and parsing helper lemmas -/

theorem fmt3_zero : fmt3 0 = "0.000".data := by
  have hf : (⌊(2⁻¹ : ℚ)⌋ : ℤ) = 0 := by norm_num
  simp +decide [fmt3, hf, natDigits, padZeros, Nat.toDigits, Nat.toDigitsCore, Nat.digitChar]

theorem twistMsg_zero :
    MecanumBase.twistMsg 0 0 0 = "TWIST,0.000,0.000,0.000\n".data := by
  simp +decide [MecanumBase.twistMsg, fmt3_zero]

theorem parseOdomValues_eq_none_of_malformed (s : List Char)
    (h : MecanumBase.Malformed s) : MecanumBase.parseOdomValues s = none := by
  unfold MecanumBase.parseOdomValues
  rcases h with h | h | ⟨i, hi, hnone⟩
  · simp [h]
  · have hlen : ¬ 7 ≤ (splitComma s).length := by omega
    simp [hlen]
  · by_cases hp : "ODOM".data.isPrefixOf s
    · by_cases hlen : 7 ≤ (splitComma s).length
      · simp only [hp, if_true, hlen]
        split
        · fin_cases hi <;> simp_all
        · rfl
      · simp [hlen]
    · simp [hp]

/-! ## C2: fail-safe disconnect -/

/-- C2.  Fail-safe disconnect: every disconnect() call that closes the port
appends exactly the line TWIST,0.000,0.000,0.000 plus newline to the device
write log and then clears the open flag, whatever the port's previous write
log (in particular whatever twist was commanded last). -/
theorem c2_failsafe_disconnect (b : MecanumBase) (p : SerialPort)
    (hser : b.ser = some p) (hopen : p.is_open = true) :
    MecanumBase.disconnect b =
      { b with ser := some { p with
          is_open := false,
          written := p.written ++ ["TWIST,0.000,0.000,0.000\n".data] } } := by
  simp [MecanumBase.disconnect, MecanumBase.send_twist, hser, hopen, twistMsg_zero]

/-- Witness for C2 at a concrete driver whose last commanded twist was
nonzero. -/
theorem c2_failsafe_disconnect_witness :
    MecanumBase.disconnect c2Base =
      { c2Base with ser := some { c2Port with
          is_open := false,
          written := c2Port.written ++ ["TWIST,0.000,0.000,0.000\n".data] } } :=
  c2_failsafe_disconnect c2Base c2Port rfl rfl

/-! ## C10: closed-port reads and writes are total and frame-preserving -/

/-- C10.  With a missing or closed serial handle, read_odom returns the stored
pose and velocity and leaves the whole driver state unchanged, and send_twist
writes nothing and changes nothing. -/
theorem c10_closed_port_frame (b : MecanumBase) (vx vy omega : ℚ)
    (h : b.ser = none ∨ ∃ p, b.ser = some p ∧ p.is_open = false) :
    MecanumBase.read_odom b = (b, (b.latest_odom, b.latest_vel)) ∧
    MecanumBase.send_twist b vx vy omega = b := by
  rcases h with h | ⟨p, hp, hopen⟩
  · constructor <;> simp [MecanumBase.read_odom, MecanumBase.send_twist, h]
  · constructor <;> simp [MecanumBase.read_odom, MecanumBase.send_twist, hp, hopen]

/-- Witness for C10 at a concrete closed-port driver. -/
theorem c10_closed_port_frame_witness :
    MecanumBase.read_odom c10Base = (c10Base, (c10Base.latest_odom, c10Base.latest_vel)) ∧
    MecanumBase.send_twist c10Base 2 3 4 = c10Base :=
  c10_closed_port_frame c10Base 2 3 4 (Or.inr ⟨_, rfl, rfl⟩)

/-! ## C3: malformed-input robustness -/

/-- C3.  Malformed-input robustness: for every stored pose and velocity and
every buffered line whose stripped text is malformed (wrong header, fewer
than 7 comma-separated fields, or an unparseable float among the six value
fields), _parse_odom_string leaves the stored state unchanged (the model is
total, so no error is raised), and read_odom on a buffer holding that line
returns the unchanged previous pose and velocity. -/
theorem c3_malformed_robustness (b : MecanumBase) (p : SerialPort) (body : List Char)
    (hser : b.ser = some p) (hopen : p.is_open = true)
    (hbuf : p.in_buffer = body ++ ['\n']) (hbody : '\n' ∉ body)
    (hmal : MecanumBase.Malformed (pystrip (body ++ ['\n']))) :
    MecanumBase._parse_odom_string (pystrip (body ++ ['\n'])) b = b ∧
    (MecanumBase.read_odom b).2 = (b.latest_odom, b.latest_vel) := by
  have hnone := parseOdomValues_eq_none_of_malformed _ hmal
  constructor
  · simp [MecanumBase._parse_odom_string, hnone]
  · have hloop : MecanumBase.read_buffer_loop (body ++ ['\n']) none = some (body ++ ['\n']) := by
      have h0 := MecanumBase.read_buffer_loop_lines [] (body ++ ['\n']) [] none
        (by simp) ⟨body, rfl, hbody⟩ (by simp)
      simpa using h0
    simp [MecanumBase.read_odom, hser, hopen, hbuf, hloop,
      MecanumBase._parse_odom_string, hnone]

/-- Witness for C3 at a truncated ODOM line and a nonzero stored state. -/
theorem c3_malformed_robustness_witness :
    MecanumBase._parse_odom_string (pystrip ("ODOM,1.5,2.0".data ++ ['\n'])) c3Base = c3Base ∧
    (MecanumBase.read_odom c3Base).2 = (c3Base.latest_odom, c3Base.latest_vel) :=
  c3_malformed_robustness c3Base c3Port "ODOM,1.5,2.0".data rfl rfl (by decide) (by decide)
    (Or.inr (Or.inl (by decide)))

/-! ## C1: freshest-packet policy -/

/-- C1.  Freshest-packet policy: when the open port's buffer holds any
sequence of complete lines followed by a trailing fragment with no newline,
and the stripped last complete line parses as an ODOM record with pose o and
velocity v, read_odom returns exactly (o, v) — the parse of the last complete
line, never an earlier one — stores it, and discards the whole buffer
including the trailing partial line (nothing is kept for the next call).
The hypotheses ask only that the earlier lines be newline-terminated, so the
claim's case of N well-formed ODOM lines is covered a fortiori. -/
theorem c1_freshest_packet (b : MecanumBase) (p : SerialPort)
    (front : List (List Char)) (lastL trailing : List Char) (o v : Vec3)
    (hser : b.ser = some p) (hopen : p.is_open = true)
    (hbuf : p.in_buffer = (front ++ [lastL]).flatten ++ trailing)
    (hfront : ∀ l ∈ front, MecanumBase.IsNlLine l)
    (hlastline : MecanumBase.IsNlLine lastL)
    (htrail : '\n' ∉ trailing)
    (hparse : MecanumBase.parseOdomValues (pystrip lastL) = some (o, v)) :
    MecanumBase.read_odom b =
      ({ b with ser := some { p with in_buffer := [] }, latest_odom := o, latest_vel := v },
       (o, v)) := by
  have hloop := MecanumBase.read_buffer_loop_lines front lastL trailing none
    hfront hlastline htrail
  simp only [MecanumBase.read_odom, hser, hopen, if_true]
  rw [hbuf, hloop]
  simp [MecanumBase._parse_odom_string, hparse]

/-- Witness for C1: two complete ODOM lines and a trailing partial line in
the buffer; read_odom returns the parse of the second line, not the first,
and empties the buffer. -/
theorem c1_freshest_packet_witness :
    MecanumBase.read_odom c1Base =
      ({ c1Base with
           ser := some { c1Port with in_buffer := [] },
           latest_odom := ((9 : ℚ), (8 : ℚ), (7 : ℚ)),
           latest_vel := ((6 : ℚ), (5 : ℚ), (4 : ℚ)) },
       ((9, 8, 7), (6, 5, 4))) := by
  have h9 : pyFloat ['9'] = some 9 := by
    simp +decide [pyFloat, pystrip, pyIsSpace, digitsToNat]
  have h8 : pyFloat ['8'] = some 8 := by
    simp +decide [pyFloat, pystrip, pyIsSpace, digitsToNat]
  have h7 : pyFloat ['7'] = some 7 := by
    simp +decide [pyFloat, pystrip, pyIsSpace, digitsToNat]
  have h6 : pyFloat ['6'] = some 6 := by
    simp +decide [pyFloat, pystrip, pyIsSpace, digitsToNat]
  have h5 : pyFloat ['5'] = some 5 := by
    simp +decide [pyFloat, pystrip, pyIsSpace, digitsToNat]
  have h4 : pyFloat ['4'] = some 4 := by
    simp +decide [pyFloat, pystrip, pyIsSpace, digitsToNat]
  have hparse : MecanumBase.parseOdomValues (pystrip "ODOM,9,8,7,6,5,4,3,2,1,0\n".data) =
      some ((9, 8, 7), (6, 5, 4)) := by
    have hst : pystrip "ODOM,9,8,7,6,5,4,3,2,1,0\n".data = "ODOM,9,8,7,6,5,4,3,2,1,0".data := by
      decide
    rw [hst]
    simp +decide [MecanumBase.parseOdomValues, splitComma, h9, h8, h7, h6, h5, h4]
  exact c1_freshest_packet c1Base c1Port ["ODOM,1,2,3,4,5,6,7,8,9,10\n".data]
    "ODOM,9,8,7,6,5,4,3,2,1,0\n".data "ODOM,5,5,".data (9, 8, 7) (6, 5, 4) rfl rfl (by decide)
    (by
      intro l hl
      simp at hl
      subst hl
      exact ⟨"ODOM,1,2,3,4,5,6,7,8,9,10".data, by decide, by decide⟩)
    ⟨"ODOM,9,8,7,6,5,4,3,2,1,0".data, by decide, by decide⟩ (by decide) hparse

/-! ## C4: toggle edge-detection -/

/-- C4 counterexample.  With toggle mode and the safety-button requirement
both enabled (a constructible toggle-mode configuration), the early safety
return skips the update of both_buttons_pressed_last: over the polls
(1,1), (0,1), (1,1) the code leaves the flag true after the third poll,
while the claimed flip law (edge relative to the actual previous poll)
demands a second flip back to false. -/
theorem c4_toggle_counterexample :
    (JoystickBaseController.run_polls true c4Ctrl c4Polls).turbo_toggled = true ∧
    specToggleFlag (pollsOf c4Polls c4Ctrl.enable_button c4Ctrl.enable_turbo_button)
      c4Ctrl.both_buttons_pressed_last c4Ctrl.turbo_toggled = false := by
  decide

/-- C4 amended.  For a connected toggle-mode controller with the
safety-button requirement disabled — the configuration the repository's
factory builds for joystick mode — the turbo flag after any sequence of
polls equals the spec's edge-detection law: it flips exactly on polls where
both buttons are down and they were not both down on the previous poll, and
persists otherwise. -/
theorem c4_toggle_amended (c : JoystickBaseController) (j : PygameJoystick)
    (inps : List JoyInput)
    (hj : c.joystick = some j) (htoggle : c.use_toggle_turbo = true)
    (hsafety : c.require_safety_button = false) :
    (JoystickBaseController.run_polls true c inps).turbo_toggled =
      specToggleFlag (pollsOf inps c.enable_button c.enable_turbo_button)
        c.both_buttons_pressed_last c.turbo_toggled := by
  induction inps generalizing c with
  | nil => simp [JoystickBaseController.run_polls, pollsOf, specToggleFlag]
  | cons i rest ih =>
    have hstep : (JoystickBaseController.get_velocities true c i).1 =
        { c with
            turbo_toggled :=
              if (i.get_button c.enable_button && i.get_button c.enable_turbo_button)
                  && !c.both_buttons_pressed_last then !c.turbo_toggled else c.turbo_toggled,
            both_buttons_pressed_last :=
              i.get_button c.enable_button && i.get_button c.enable_turbo_button } := by
      simp [JoystickBaseController.get_velocities, hj, hsafety, htoggle]
    have hrec := ih ((JoystickBaseController.get_velocities true c i).1)
      (by rw [hstep]; simpa using hj) (by rw [hstep]; simpa using htoggle)
      (by rw [hstep]; simpa using hsafety)
    simp only [JoystickBaseController.run_polls, List.foldl_cons] at hrec ⊢
    rw [hrec, hstep]
    simp [pollsOf, specToggleFlag]

/-- Witness for the amended C4: both buttons held across three consecutive
polls from a not-both-pressed state; the flag follows the spec law (a single
flip on the first poll, persisting through the next two). -/
theorem c4_toggle_amended_witness :
    (JoystickBaseController.run_polls true c4wCtrl c4wPolls).turbo_toggled =
      specToggleFlag (pollsOf c4wPolls c4wCtrl.enable_button c4wCtrl.enable_turbo_button)
        c4wCtrl.both_buttons_pressed_last c4wCtrl.turbo_toggled :=
  c4_toggle_amended c4wCtrl { inited := true } c4wPolls rfl rfl rfl

/-! ## C5: partial-action default -/

/-- C5.  Partial-action default: each of the three base keys that is absent
from the action map contributes 0 to the twist that send_action passes to
send_twist, and send_action always performs exactly the send_twist call with
that defaulted twist (the model is total: no error arises from missing base
keys). -/
theorem c5_partial_action_default (left_send right_send : ActionMap → ActionMap)
    (base : MecanumBase) (action : ActionMap) :
    (lookupKey action "base_vx".data = none →
      (MimicFollower.base_twist_of_action action).1 = 0) ∧
    (lookupKey action "base_vy".data = none →
      (MimicFollower.base_twist_of_action action).2.1 = 0) ∧
    (lookupKey action "base_omega".data = none →
      (MimicFollower.base_twist_of_action action).2.2 = 0) ∧
    (MimicFollower.send_action left_send right_send base action).1 =
      MecanumBase.send_twist base (MimicFollower.base_twist_of_action action).1
        (MimicFollower.base_twist_of_action action).2.1
        (MimicFollower.base_twist_of_action action).2.2 := by
  refine ⟨fun h => ?_, fun h => ?_, fun h => ?_, ?_⟩ <;>
    simp [MimicFollower.base_twist_of_action, MimicFollower.send_action, *]

/-- Witness for C5: an action holding only a left-arm key defaults all three
base components to 0, so send_action performs send_twist(0, 0, 0). -/
theorem c5_partial_action_default_witness :
    (MimicFollower.base_twist_of_action c5Action).1 = 0 ∧
    (MimicFollower.base_twist_of_action c5Action).2.1 = 0 ∧
    (MimicFollower.base_twist_of_action c5Action).2.2 = 0 ∧
    (MimicFollower.send_action id id c5Base c5Action).1 =
      MecanumBase.send_twist c5Base (MimicFollower.base_twist_of_action c5Action).1
        (MimicFollower.base_twist_of_action c5Action).2.1
        (MimicFollower.base_twist_of_action c5Action).2.2 :=
  ⟨(c5_partial_action_default id id c5Base c5Action).1 (by decide),
   (c5_partial_action_default id id c5Base c5Action).2.1 (by decide),
   (c5_partial_action_default id id c5Base c5Action).2.2.1 (by decide),
   (c5_partial_action_default id id c5Base c5Action).2.2.2⟩

/-! ## C6: namespace uniqueness -/

theorem affixKey_inj (P S : List Char) : Function.Injective (fun m : Key => P ++ m ++ S) :=
  fun _ _ h => List.append_cancel_left (List.append_cancel_right h)

theorem disjoint_of_head? {l1 l2 : List Key} {c d : Char} (hcd : c ≠ d)
    (h1 : ∀ k ∈ l1, k.head? = some c) (h2 : ∀ k ∈ l2, k.head? = some d) :
    l1.Disjoint l2 := by
  intro k hk1 hk2
  have e1 := h1 k hk1
  have e2 := h2 k hk2
  rw [e1] at e2
  exact hcd (Option.some.inj e2)

theorem arm_keys_nodup (lm rm : List Key) (hlm : lm.Nodup) (hrm : rm.Nodup) :
    (MimicFollower._arm_motors_ft_keys lm rm).Nodup := by
  rw [MimicFollower._arm_motors_ft_keys, List.nodup_append]
  refine ⟨hlm.map (affixKey_inj "left_".data ".pos".data),
          hrm.map (affixKey_inj "right_".data ".pos".data), ?_⟩
  apply disjoint_of_head? (c := 'l') (d := 'r') (by decide)
  · intro k hk
    obtain ⟨m, _, rfl⟩ := List.mem_map.mp hk
    rfl
  · intro k hk
    obtain ⟨m, _, rfl⟩ := List.mem_map.mp hk
    rfl

theorem arm_keys_head? (lm rm : List Key) :
    ∀ k ∈ MimicFollower._arm_motors_ft_keys lm rm, k.head? = some 'l' ∨ k.head? = some 'r' := by
  intro k hk
  rw [MimicFollower._arm_motors_ft_keys, List.mem_append] at hk
  rcases hk with hk | hk <;> obtain ⟨m, _, rfl⟩ := List.mem_map.mp hk
  · exact Or.inl rfl
  · exact Or.inr rfl

/-- C6 counterexample.  A composite configured with a camera named base_x is
legal, yet its observation key sequence then carries base_x twice: the dict
merge in observation_features (and get_observation) aliases the camera frame
and the base odometry x onto the same key, so the keys of a configured
composite are not always pairwise distinct. -/
theorem c6_namespace_counterexample :
    ¬ (MimicFollower.observation_features_keys so100Motors so100Motors c6Cams).Nodup := by
  decide

/-- C6 amended.  For every configured composite whose camera names avoid the
reserved arm and base observation/action keys (and whose motor name lists are
duplicate-free, as dict keys are), the observation keys are pairwise
distinct, the action keys are pairwise distinct, and the action keys are
disjoint from the camera keys. -/
theorem c6_namespace_amended (lm rm cams : List Key)
    (hlm : lm.Nodup) (hrm : rm.Nodup) (hcams : cams.Nodup)
    (hobs : ∀ k ∈ cams, k ∉ MimicFollower.observation_features_keys lm rm [])
    (hact : ∀ k ∈ cams, k ∉ MimicFollower.action_features_keys lm rm) :
    (MimicFollower.observation_features_keys lm rm cams).Nodup ∧
    (MimicFollower.action_features_keys lm rm).Nodup ∧
    (MimicFollower.action_features_keys lm rm).Disjoint cams := by
  have harm := arm_keys_nodup lm rm hlm hrm
  have hheads := arm_keys_head? lm rm
  have hdisj_obs : (MimicFollower._arm_motors_ft_keys lm rm).Disjoint
      ["base_x".data, "base_y".data, "base_theta".data] := by
    intro k hk hkb
    rcases hheads k hk with h | h <;>
      (fin_cases hkb <;> simp_all)
  have hdisj_act : (MimicFollower._arm_motors_ft_keys lm rm).Disjoint
      ["base_vx".data, "base_vy".data, "base_omega".data] := by
    intro k hk hkb
    rcases hheads k hk with h | h <;>
      (fin_cases hkb <;> simp_all)
  refine ⟨?_, ?_, ?_⟩
  · rw [MimicFollower.observation_features_keys, List.append_assoc, List.nodup_append]
    refine ⟨harm, ?_, ?_⟩
    · rw [List.nodup_append]
      refine ⟨by decide, hcams, ?_⟩
      intro k hk hkc
      exact hobs k hkc (by
        rw [MimicFollower.observation_features_keys]
        simp only [List.append_nil, List.mem_append]
        exact Or.inr hk)
    · intro k hk hk2
      rw [List.mem_append] at hk2
      rcases hk2 with hk2 | hk2
      · exact hdisj_obs hk hk2
      · exact hobs k hk2 (by
          rw [MimicFollower.observation_features_keys]
          simp only [List.append_nil, List.mem_append]
          exact Or.inl hk)
  · rw [MimicFollower.action_features_keys, List.nodup_append]
    exact ⟨harm, by decide, hdisj_act⟩
  · intro k hk hkc
    exact hact k hkc hk

/-- Witness for the amended C6 at the SO-100 motor lists and one camera named
main_cam. -/
theorem c6_namespace_amended_witness :
    (MimicFollower.observation_features_keys so100Motors so100Motors ["main_cam".data]).Nodup ∧
    (MimicFollower.action_features_keys so100Motors so100Motors).Nodup ∧
    (MimicFollower.action_features_keys so100Motors so100Motors).Disjoint
      ["main_cam".data] :=
  c6_namespace_amended so100Motors so100Motors ["main_cam".data]
    (by decide) (by decide) (by decide) (by decide) (by decide)

/-! ## C7: leader action composition -/

/-- C7 counterexample.  In xbox mode the leader's base action is the
placeholder zero triple (the source's xbox and joystick branches are pass
statements marked TODO), even while the mode's input controller — a connected
XboxBaseController with the stick pushed forward and the safety button held —
reports the nonzero velocity (1/10, 0, 0).  So get_action does not merge the
configured InputSource's velocity components in xbox (or joystick) mode. -/
theorem c7_leader_counterexample :
    lookupKey (MimicLeader._get_base_action c7Leader) "base_vx".data = some 0 ∧
    XboxBaseController.get_velocities c7Xbox c7Inp = (1/10, 0, 0) ∧
    ((1 : ℚ)/10) ≠ 0 := by
  refine ⟨?_, ?_, by norm_num⟩
  · simp +decide [MimicLeader._get_base_action, lookupKey, c7Leader]
  · norm_num [XboxBaseController.get_velocities, JoyInput.get_button, JoyInput.get_axis,
      c7Xbox, c7Inp, List.getD]

/-- C7 amended.  For every leader and every base_control_mode, get_action
merges the prefixed left and right arm actions with the three base-velocity
keys, and its key set is a permutation of CompositeFollower's declared
action_features keys whenever the arms' action maps carry the SO-100
motor.pos keys; but the base values come from the leader's internal keyboard
handler only in keyboard mode — in xbox and joystick modes they are the
constant zeros of the unimplemented placeholder, not an InputSource's
output. -/
theorem c7_leader_amended (m : MimicLeader) (lmot rmot : List Key) (la ra : ActionMap)
    (hla : mapKeys la = so100_action_keys lmot)
    (hra : mapKeys ra = so100_action_keys rmot) :
    (mapKeys (MimicLeader.get_action m la ra)).Perm
      (MimicFollower.action_features_keys lmot rmot) ∧
    (m.config.base_control_mode = .xbox ∨ m.config.base_control_mode = .joystick →
      MimicLeader._get_base_action m =
        [("base_vx".data, 0), ("base_vy".data, 0), ("base_omega".data, 0)]) := by
  constructor
  · have hkeys : mapKeys (MimicLeader.get_action m la ra) =
        ["base_vx".data, "base_vy".data, "base_omega".data]
          ++ (lmot.map (fun mm => "left_".data ++ (mm ++ ".pos".data))
              ++ rmot.map (fun mm => "right_".data ++ (mm ++ ".pos".data))) := by
      have h1 : mapKeys (la.map (fun kv => ("left_".data ++ kv.1, kv.2)))
          = lmot.map (fun mm => "left_".data ++ (mm ++ ".pos".data)) := by
        simp only [mapKeys, List.map_map]
        have : (Prod.fst ∘ fun kv : Key × ℚ => (("left_".data ++ kv.1 : Key), kv.2))
            = (fun k : Key => "left_".data ++ k) ∘ Prod.fst := rfl
        rw [this, ← List.map_map]
        rw [show la.map Prod.fst = mapKeys la from rfl, hla]
        simp [so100_action_keys, List.map_map, Function.comp]
      have h2 : mapKeys (ra.map (fun kv => ("right_".data ++ kv.1, kv.2)))
          = rmot.map (fun mm => "right_".data ++ (mm ++ ".pos".data)) := by
        simp only [mapKeys, List.map_map]
        have : (Prod.fst ∘ fun kv : Key × ℚ => (("right_".data ++ kv.1 : Key), kv.2))
            = (fun k : Key => "right_".data ++ k) ∘ Prod.fst := rfl
        rw [this, ← List.map_map]
        rw [show ra.map Prod.fst = mapKeys ra from rfl, hra]
        simp [so100_action_keys, List.map_map, Function.comp]
      simp [MimicLeader.get_action, MimicLeader._get_base_action, mapKeys,
        List.map_append] at h1 h2 ⊢
      simp [h1, h2]
    rw [hkeys]
    have hact : MimicFollower.action_features_keys lmot rmot =
        (lmot.map (fun mm => "left_".data ++ (mm ++ ".pos".data))
          ++ rmot.map (fun mm => "right_".data ++ (mm ++ ".pos".data)))
          ++ ["base_vx".data, "base_vy".data, "base_omega".data] := by
      simp [MimicFollower.action_features_keys, MimicFollower._arm_motors_ft_keys,
        List.append_assoc]
    rw [hact]
    exact List.perm_append_comm
  · intro h
    rcases h with h | h <;> simp [MimicLeader._get_base_action, h]

/-- Witness for the amended C7 at an xbox-mode leader and SO-100 arm action
maps. -/
theorem c7_leader_amended_witness :
    (mapKeys (MimicLeader.get_action c7Leader c7La c7La)).Perm
      (MimicFollower.action_features_keys so100Motors so100Motors) ∧
    (c7Leader.config.base_control_mode = .xbox ∨
        c7Leader.config.base_control_mode = .joystick →
      MimicLeader._get_base_action c7Leader =
        [("base_vx".data, 0), ("base_vy".data, 0), ("base_omega".data, 0)]) :=
  c7_leader_amended c7Leader so100Motors so100Motors c7La c7La (by decide) (by decide)

/-! ## C8: is_connected liveness -/

/-- C8 counterexample.  XboxBaseController.is_connected checks only that the
handle is non-null: after disconnect() — which calls joystick.quit() but
keeps the attribute — the deinitialized handle still makes is_connected
report true, so the gamepad variant does not require the device to be
initialized. -/
theorem c8_liveness_counterexample :
    XboxBaseController.is_connected (XboxBaseController.disconnect c8Ctrl) = true ∧
    (XboxBaseController.disconnect c8Ctrl).joystick = some { inited := false } := by
  decide

/-- C8 amended.  The keyboard variant reports connected only if its listener
exists and its thread is alive, and the joystick variant only if its handle
is non-null and initialized; the Xbox variant, however, reports connected
exactly when the handle is non-null, with no initialization check. -/
theorem c8_liveness_amended :
    (∀ (pa : Bool) (c : KeyboardBaseController),
        KeyboardBaseController.is_connected pa c = true →
          ∃ l, c.key_listener = some l ∧ l.alive = true) ∧
    (∀ (pa : Bool) (c : JoystickBaseController),
        JoystickBaseController.is_connected pa c = true →
          ∃ j, c.joystick = some j ∧ j.inited = true) ∧
    (∀ c : XboxBaseController,
        XboxBaseController.is_connected c = true ↔ c.joystick.isSome = true) := by
  refine ⟨?_, ?_, ?_⟩
  · intro pa c h
    cases hk : c.key_listener with
    | none => simp [KeyboardBaseController.is_connected, hk] at h
    | some l =>
      simp [KeyboardBaseController.is_connected, hk] at h
      exact ⟨l, rfl, h.2⟩
  · intro pa c h
    cases hk : c.joystick with
    | none => simp [JoystickBaseController.is_connected, hk] at h
    | some j =>
      simp [JoystickBaseController.is_connected, hk] at h
      exact ⟨j, rfl, h.2⟩
  · intro c
    simp [XboxBaseController.is_connected]

/-- Witness for the amended C8 at concrete connected controllers. -/
theorem c8_liveness_amended_witness :
    (∃ l, c8kb.key_listener = some l ∧ l.alive = true) ∧
    (∃ j, c8joy.joystick = some j ∧ j.inited = true) ∧
    (XboxBaseController.is_connected c8Ctrl = true ↔ c8Ctrl.joystick.isSome = true) :=
  ⟨c8_liveness_amended.1 true c8kb (by decide),
   c8_liveness_amended.2.1 true c8joy (by decide),
   c8_liveness_amended.2.2 c8Ctrl⟩

/-! ## C9: device-absence degradation -/

/-- C9.  When pygame reports zero devices at connect time, connect returns
with the freshly-constructed controller unchanged (no exception in the model:
the source logs an error and returns), every subsequent is_connected reports
false, and every subsequent get_velocities returns the zero twist — for both
the Xbox and the generic joystick variant. -/
theorem c9_device_absence (env : PygameEnv) (pa : Bool) (cx : XboxBaseController)
    (cj : JoystickBaseController) (inpx inpj : JoyInput)
    (hcount : env.joystick_count = 0)
    (hx : cx.joystick = none) (hj : cj.joystick = none) :
    (XboxBaseController.connect env cx = cx ∧
     XboxBaseController.is_connected (XboxBaseController.connect env cx) = false ∧
     XboxBaseController.get_velocities (XboxBaseController.connect env cx) inpx = (0, 0, 0)) ∧
    (JoystickBaseController.connect env cj = cj ∧
     JoystickBaseController.is_connected pa (JoystickBaseController.connect env cj) = false ∧
     (JoystickBaseController.get_velocities pa (JoystickBaseController.connect env cj) inpj).2
        = (0, 0, 0)) := by
  have hcx : XboxBaseController.connect env cx = cx := by
    simp [XboxBaseController.connect, hcount]
  have hcj : JoystickBaseController.connect env cj = cj := by
    simp [JoystickBaseController.connect, hcount]
  refine ⟨⟨hcx, ?_, ?_⟩, ⟨hcj, ?_, ?_⟩⟩ <;>
    simp [hcx, hcj, XboxBaseController.is_connected, XboxBaseController.get_velocities,
      JoystickBaseController.is_connected, JoystickBaseController.get_velocities, hx, hj]

/-- Witness for C9 at a zero-device environment, fresh controllers and an
aggressive input. -/
theorem c9_device_absence_witness :
    (XboxBaseController.connect c9Env c9Xbox = c9Xbox ∧
     XboxBaseController.is_connected (XboxBaseController.connect c9Env c9Xbox) = false ∧
     XboxBaseController.get_velocities (XboxBaseController.connect c9Env c9Xbox) c9Inp
        = (0, 0, 0)) ∧
    (JoystickBaseController.connect c9Env c9Joy = c9Joy ∧
     JoystickBaseController.is_connected true (JoystickBaseController.connect c9Env c9Joy)
        = false ∧
     (JoystickBaseController.get_velocities true (JoystickBaseController.connect c9Env c9Joy)
        c9Inp).2 = (0, 0, 0)) :=
  c9_device_absence c9Env true c9Xbox c9Joy c9Inp c9Inp rfl rfl rfl
